import Mathlib

/-!
A shallow embedding of the `flimsy` fine-grained reactive runtime
(`src/flimsy.ts`, compiled as `src/flimsy.js`) and proofs about it.

The runtime is a heap of `Signal` and `Observer` objects together with three
process-wide slots (`BATCH`, `OBSERVER`, `TRACKING`).  We model object
identity with numeric ids, the heap as association lists keyed by those ids,
and every runtime function of the source as a fuel-indexed Lean function on
an explicit `State`.  User-supplied callbacks (the bodies of effects, memos,
roots, batches, and the values passed to setters) are drawn from a small
deep-embedded expression language `Expr`; pure value-level functions inside
user code are arbitrary Lean functions.

JavaScript `Set` iteration order (insertion order, deletions observed by an
in-flight `forEach`, deleted-and-re-added elements visited again) is
observable in `flimsy` — `Computation.run` removes and re-adds the running
computation to the observer sets that are being iterated by `Signal.stale` —
so sets are modelled exactly as ordered entry lists with tombstones: an `add`
appends a live entry (if no live entry exists), a `delete` marks entries
dead, and iteration walks the current entry list by index, re-reading the
heap at every step.

User-visible side effects are modelled by append-only logs in the state:
`ticks` (a counter bumped inside a user function, to count executions),
`vlog` (values logged by user code), `cleanupLog` (invocations of registered
cleanup callbacks), and `handlerLog` (invocations of registered error
handlers, with the error value).  Cleanup and error-handler callbacks
themselves are modelled as opaque tokens that only log their invocation.
-/

namespace Flimsy

/-- Identifier of a `Signal` object in the heap. -/
abbrev SigId := Nat

/-- Identifier of an `Observer` object (plain observer, `Root`, or
`Computation`) in the heap. -/
abbrev ObsId := Nat

/-- Runtime values.  `undefined` is JavaScript's `undefined` (the result of an
effect body, of a swallowed error, of a `void` call); all other values are
modelled as integers.  `Object.is` on these values is decidable equality. -/
inductive Val where
  | undefined : Val
  | int (n : Int) : Val
deriving DecidableEq, Repr

/-- JavaScript truthiness for the values we model: `undefined` and `0` are
falsy, every other number is truthy. -/
def Val.truthy : Val → Bool
  | .undefined => false
  | .int n => decide (n ≠ 0)

/-- The `equals` option of a signal: the default (`Object.is`), the sentinel
`equals: false` (expanded by the constructor to `() => false`), or a custom
equality function. -/
inductive EqKind where
  | byIs : EqKind
  | never : EqKind
  | custom (f : Val → Val → Bool) : EqKind

/-- Apply an equality option to two values (`this.equals(value, valueNext)`). -/
def EqKind.test : EqKind → Val → Val → Bool
  | .byIs, a, b => decide (a = b)
  | .never, _, _ => false
  | .custom f, a, b => f a b

/-- A JavaScript `Set`, modelled as an insertion-ordered entry list with
tombstones so that mutation during `forEach` behaves as in the language:
deleting an entry marks it dead (a later `forEach` step skips it), re-adding
appends a fresh live entry (a later `forEach` step visits it). -/
structure JsSet (α : Type) where
  entries : List (α × Bool)
deriving DecidableEq, Repr

/-- The empty set (`new Set()`). -/
def JsSet.empty {α : Type} : JsSet α := ⟨[]⟩

/-- `s.has(a)`: is there a live entry for `a`? -/
def JsSet.has {α : Type} [DecidableEq α] (s : JsSet α) (a : α) : Bool :=
  s.entries.any (fun e => e.2 && decide (e.1 = a))

/-- `s.add(a)`: append a live entry unless one is already present. -/
def JsSet.add {α : Type} [DecidableEq α] (s : JsSet α) (a : α) : JsSet α :=
  if s.has a then s else ⟨s.entries ++ [(a, true)]⟩

/-- `s.delete(a)`: mark every entry for `a` dead. -/
def JsSet.delete {α : Type} [DecidableEq α] (s : JsSet α) (a : α) : JsSet α :=
  ⟨s.entries.map (fun e => if e.1 = a then (e.1, false) else e)⟩

/-- A value stored in an observer's `contexts` record: either an ordinary
context value or the error-handler list kept under the reserved
`SYMBOL_ERRORS` key (handlers are opaque tokens that log their invocation). -/
inductive CtxVal where
  | val (v : Val) : CtxVal
  | handlers (hs : List Nat) : CtxVal

/-- The reserved `contexts` key standing for `SYMBOL_ERRORS`.  Context keys
used by `createContext` are the positive numbers. -/
def SYMBOL_ERRORS : Nat := 0

/-- The deep-embedded language of user-supplied function bodies.  Each
constructor corresponds to an operation user code can perform against the
public API of `flimsy` (plus pure computation, sequencing, branching,
throwing, and the instrumentation hooks `tick`/`logV`).  Signals and
observers are addressed by the ids the deterministic allocator will give
them. -/
inductive Expr where
  | const (v : Val) : Expr
  | seq (a b : Expr) : Expr
  | app (f : Val → Val) (a : Expr) : Expr
  | app2 (f : Val → Val → Val) (a b : Expr) : Expr
  | iteE (c t e : Expr) : Expr
  | tick (n : Nat) : Expr
  | logV (a : Expr) : Expr
  | throwE (a : Expr) : Expr
  | mkSignal (eqk : EqKind) (init : Expr) : Expr
  | readSig (s : SigId) : Expr
  | writeSig (s : SigId) (a : Expr) : Expr
  | writeSigF (s : SigId) (f : Val → Val) : Expr
  | mkEffect (body : Expr) : Expr
  | mkMemo (eqk : EqKind) (body : Expr) : Expr
  | mkRoot (body : Expr) : Expr
  | batchE (body : Expr) : Expr
  | untrackE (body : Expr) : Expr
  | ctxGet (k : Nat) (dflt : Val) : Expr
  | ctxSet (k : Nat) (a : Expr) : Expr
  | onCleanupE (c : Nat) : Expr
  | onErrorE (h : Nat) : Expr
  | disposeE (o : ObsId) : Expr

/-- The `Signal` object: current value, equality option, dependent
computations (`observers`), and the owning computation (`parent`) when the
signal is the internal result signal of a memo/effect. -/
structure SignalObj where
  parent : Option ObsId
  value : Val
  equals : EqKind
  observers : JsSet ObsId

/-- The `Observer` object (and its `Root`/`Computation` subclasses,
distinguished by `isComp`; the fields `fn`, `sig`, `waiting`, `fresh` are
meaningful only for computations).  `observers` is the set of child
observers, `signals` the set of signals this observer currently depends on.
`sig` is `none` between the construction of a computation and the end of its
first run (in the source `this.signal` is assigned only after the
constructor's initial `this.run()` returns). -/
structure ObsObj where
  parent : Option ObsId
  cleanups : List Nat
  contexts : List (Nat × CtxVal)
  observers : JsSet ObsId
  signals : JsSet SigId
  isComp : Bool
  fn : Expr
  sig : Option SigId
  waiting : Int
  fresh : Bool

/-- The whole runtime state: the two heaps with their allocation counters,
the three process-wide slots (`BATCH`, `OBSERVER`, `TRACKING`) and the
instrumentation logs. -/
structure State where
  sigs : List (SigId × SignalObj)
  obs : List (ObsId × ObsObj)
  nextSig : Nat
  nextObs : Nat
  batch : Option (List (SigId × Val))
  observer : Option ObsId
  tracking : Bool
  ticks : List Nat
  vlog : List Val
  cleanupLog : List Nat
  handlerLog : List (Nat × Val)

/-- The state of a freshly loaded module: empty heaps, no batch, no
observer, tracking off. -/
def initState : State :=
  { sigs := [], obs := [], nextSig := 0, nextObs := 0, batch := none,
    observer := none, tracking := false, ticks := [], vlog := [],
    cleanupLog := [], handlerLog := [] }

/-- Total positional lookup in a list (the `i`-th element, if any), used to
walk JavaScript `Set` entry lists by index against the live heap. -/
def listNth {α : Type} : List α → Nat → Option α
  | [], _ => none
  | a :: _, 0 => some a
  | _ :: l, n + 1 => listNth l n

/-- Look up a signal object by id. -/
def lookupSig (st : State) (s : SigId) : Option SignalObj :=
  (st.sigs.find? (fun p => decide (p.1 = s))).map (·.2)

/-- Look up an observer object by id. -/
def lookupObs (st : State) (o : ObsId) : Option ObsObj :=
  (st.obs.find? (fun p => decide (p.1 = o))).map (·.2)

/-- Update the signal object at `s` (no-op when absent). -/
def updSig (st : State) (s : SigId) (f : SignalObj → SignalObj) : State :=
  { st with sigs := st.sigs.map (fun p => if p.1 = s then (p.1, f p.2) else p) }

/-- Update the observer object at `o` (no-op when absent). -/
def updObs (st : State) (o : ObsId) (f : ObsObj → ObsObj) : State :=
  { st with obs := st.obs.map (fun p => if p.1 = o then (p.1, f p.2) else p) }

/-- `this.value` of a signal (`undefined` on a dangling id, which well-formed
scenarios never produce). -/
def sigValueD (st : State) (s : SigId) : Val :=
  match lookupSig st s with
  | some g => g.value
  | none => .undefined

/-- `this.waiting` of a computation (`0` on a dangling id). -/
def compWaitingD (st : State) (o : ObsId) : Int :=
  match lookupObs st o with
  | some ob => ob.waiting
  | none => 0

/-- `this.fresh` of a computation (`false` on a dangling id). -/
def compFreshD (st : State) (o : ObsId) : Bool :=
  match lookupObs st o with
  | some ob => ob.fresh
  | none => false

/-- `this.signal` of a computation, as an optional signal id. -/
def compSigD (st : State) (o : ObsId) : Option SigId :=
  (lookupObs st o).bind (·.sig)

/-- `OBSERVER instanceof Computation`. -/
def isCompB (st : State) (o : ObsId) : Bool :=
  match lookupObs st o with
  | some ob => ob.isComp
  | none => false

/-- Result of executing a piece of user code or a runtime function: a normal
value, a thrown (and not yet handled) error value, or fuel exhaustion (a
model artifact; every theorem below supplies enough fuel for it never to
arise). -/
inductive Res where
  | ok (v : Val) : Res
  | thrown (e : Val) : Res
  | nofuel : Res
deriving DecidableEq, Repr

/-- The argument of `Signal.set`: either a plain value or an update function
(the source distinguishes them with `value instanceof Function`). -/
inductive SetArg where
  | val (v : Val) : SetArg
  | updF (f : Val → Val) : SetArg

/-- `const valueNext = (value instanceof Function) ? value(this.value) : value`. -/
def resolveSet (arg : SetArg) (cur : Val) : Val :=
  match arg with
  | .val v => v
  | .updF f => f cur

/-- The dependency-registration step at the top of `Signal.get`: when
`TRACKING` is on and `OBSERVER` is a computation, add the observer to the
signal's observer set and the signal to the observer's dependency set. -/
def trackDep (st : State) (s : SigId) : State :=
  if st.tracking then
    match st.observer with
    | some o =>
      if isCompB st o then
        updObs (updSig st s (fun g => { g with observers := g.observers.add o }))
          o (fun ob => { ob with signals := ob.signals.add s })
      else st
    | none => st
  else st

/-- `Observer.get(id)` — look `id` up in this observer's own `contexts`,
else delegate to the parent chain.  Fueled against malformed (cyclic) parent
chains, which reachable states never contain. -/
def obsGetCtx : Nat → State → ObsId → Nat → Option CtxVal
  | 0, _, _, _ => none
  | n + 1, st, o, k =>
    match lookupObs st o with
    | none => none
    | some ob =>
      match ob.contexts.find? (fun p => decide (p.1 = k)) with
      | some p => some p.2
      | none =>
        match ob.parent with
        | some p => obsGetCtx n st p k
        | none => none

/-- `Observer.set(id, value)` on the contexts record of `o`: assignment to
`this.contexts[id]` (replace if present, insert otherwise). -/
def ctxAssign (cs : List (Nat × CtxVal)) (k : Nat) (v : CtxVal) :
    List (Nat × CtxVal) :=
  if cs.any (fun p => decide (p.1 = k)) then
    cs.map (fun p => if p.1 = k then (k, v) else p)
  else cs ++ [(k, v)]

/-- The `this.signals.forEach(signal => signal.observers.delete(this))` loop
of `Observer.dispose`, walking the entry list by index against the live
heap.  Returns `none` when the fuel runs out; callers turn that into the
`nofuel` result and discard the partial work (the real program has no fuel,
so the `none` path is a model artifact that never carries observable
state). -/
def disposeSignals : Nat → ObsId → Nat → State → Option State
  | 0, _, _, _ => none
  | n + 1, o, i, st =>
    match lookupObs st o with
    | none => some st
    | some ob =>
      match listNth ob.signals.entries i with
      | some e =>
        let st1 :=
          if e.2 then
            updSig st e.1 (fun g => { g with observers := g.observers.delete o })
          else st
        disposeSignals n o (i + 1) st1
      | none => some st

mutual

/-- `Observer.dispose()`: recursively dispose children, unsubscribe from all
dependency signals, invoke (log) the registered cleanups in order, clear
`cleanups`/`contexts`/`observers`/`signals`, and finally remove this
observer from its parent's child set. -/
def disposeObsF : Nat → ObsId → State → Option State
  | 0, _, _ => none
  | n + 1, o, st =>
    match lookupObs st o with
    | none => some st
    | some _ =>
      match disposeChildren n o 0 st with
      | none => none
      | some st1 =>
        match disposeSignals n o 0 st1 with
        | none => none
        | some st2 =>
          let st3 :=
            match lookupObs st2 o with
            | some ob => { st2 with cleanupLog := st2.cleanupLog ++ ob.cleanups }
            | none => st2
          let st4 := updObs st3 o (fun ob =>
            { ob with cleanups := [], contexts := [], observers := .empty,
                      signals := .empty })
          match (lookupObs st4 o).bind (·.parent) with
          | some p =>
            some (updObs st4 p (fun pb => { pb with observers := pb.observers.delete o }))
          | none => some st4

/-- The `this.observers.forEach(observer => observer.dispose())` loop of
`Observer.dispose`, walking the entry list by index against the live heap. -/
def disposeChildren : Nat → ObsId → Nat → State → Option State
  | 0, _, _, _ => none
  | n + 1, o, i, st =>
    match lookupObs st o with
    | none => some st
    | some ob =>
      match listNth ob.observers.entries i with
      | some e =>
        match (if e.2 then disposeObsF n e.1 st else some st) with
        | none => none
        | some st1 => disposeChildren n o (i + 1) st1
      | none => some st

end

/-- The three passes of the `batch` commit loop: mark staged signals stale,
write the staged values, mark them non-stale. -/
inductive BPass where
  | up : BPass
  | write : BPass
  | down : BPass

set_option maxHeartbeats 2000000
set_option maxRecDepth 16384

mutual

/-- Evaluate a user-code expression.  Each case performs the corresponding
public-API call of the source (`createSignal`, `Signal.get`/`set`,
`createEffect`, `createMemo`, `createRoot`, `batch`, `untrack`,
`createContext`'s `get`/`set`, `onCleanup`, `onError`, `dispose`). -/
def evalE : Nat → Expr → State → State × Res
  | 0, _, st => (st, .nofuel)
  | n + 1, e, st =>
    match e with
    | .const v => (st, .ok v)
    | .seq a b =>
      match evalE n a st with
      | (st1, .ok _) => evalE n b st1
      | other => other
    | .app f a =>
      match evalE n a st with
      | (st1, .ok v) => (st1, .ok (f v))
      | other => other
    | .app2 f a b =>
      match evalE n a st with
      | (st1, .ok va) =>
        match evalE n b st1 with
        | (st2, .ok vb) => (st2, .ok (f va vb))
        | other => other
      | other => other
    | .iteE c t el =>
      match evalE n c st with
      | (st1, .ok v) => if v.truthy then evalE n t st1 else evalE n el st1
      | other => other
    | .tick m => ({ st with ticks := st.ticks ++ [m] }, .ok .undefined)
    | .logV a =>
      match evalE n a st with
      | (st1, .ok v) => ({ st1 with vlog := st1.vlog ++ [v] }, .ok v)
      | other => other
    | .throwE a =>
      match evalE n a st with
      | (st1, .ok v) => (st1, .thrown v)
      | other => other
    | .mkSignal eqk init =>
      match evalE n init st with
      | (st1, .ok v) =>
        let sid := st1.nextSig
        ({ st1 with
            sigs := st1.sigs ++ [(sid, { parent := none, value := v,
                                         equals := eqk, observers := .empty })],
            nextSig := sid + 1 }, .ok (.int sid))
      | other => other
    | .readSig s => sigGetF n s st
    | .writeSig s a =>
      match evalE n a st with
      | (st1, .ok v) => sigSetF n s (.val v) st1
      | other => other
    | .writeSigF s f => sigSetF n s (.updF f) st
    | .mkEffect body =>
      match newComputation n body .byIs st with
      | (st1, .ok _) => (st1, .ok .undefined)
      | other => other
    | .mkMemo eqk body =>
      match newComputation n body eqk st with
      | (st1, .ok _) => (st1, .ok .undefined)
      | other => other
    | .mkRoot body =>
      let oid := st.nextObs
      let st1 : State :=
        { st with
            obs := st.obs ++ [(oid, { parent := st.observer, cleanups := [],
                                      contexts := [], observers := .empty,
                                      signals := .empty, isComp := false,
                                      fn := .const .undefined, sig := none,
                                      waiting := 0, fresh := false })],
            nextObs := oid + 1 }
      wrapF n body (some oid) false st1
    | .batchE body => batchF n body st
    | .untrackE body => wrapF n body st.observer false st
    | .ctxGet k dflt =>
      match st.observer with
      | none => (st, .ok dflt)
      | some o =>
        match obsGetCtx (n + 1) st o k with
        | some (.val v) => (st, .ok (if v = .undefined then dflt else v))
        | _ => (st, .ok dflt)
    | .ctxSet k a =>
      match evalE n a st with
      | (st1, .ok v) =>
        match st1.observer with
        | some o => (updObs st1 o (fun ob =>
            { ob with contexts := ctxAssign ob.contexts k (.val v) }), .ok .undefined)
        | none => (st1, .ok .undefined)
      | other => other
    | .onCleanupE c =>
      match st.observer with
      | some o => (updObs st o (fun ob => { ob with cleanups := ob.cleanups ++ [c] }), .ok .undefined)
      | none => (st, .ok .undefined)
    | .onErrorE h =>
      match st.observer with
      | none => (st, .ok .undefined)
      | some o =>
        (updObs st o (fun ob =>
          { ob with contexts :=
              match ob.contexts.find? (fun p => decide (p.1 = SYMBOL_ERRORS)) with
              | some (_, .handlers hs) =>
                ctxAssign ob.contexts SYMBOL_ERRORS (.handlers (hs ++ [h]))
              | _ => ctxAssign ob.contexts SYMBOL_ERRORS (.handlers [h]) }), .ok .undefined)
    | .disposeE o =>
      match disposeObsF n o st with
      | some st1 => (st1, .ok .undefined)
      | none => (st, .nofuel)

termination_by structural n => n
/-- `Wrapper.wrap(fn, observer, tracking)`: save the `OBSERVER`/`TRACKING`
slots, install the new pair, run `fn`; on a thrown error look the
`SYMBOL_ERRORS` handler list up the observer's context chain, invoke (log)
every handler and swallow the error when a list is found, rethrow otherwise;
restore the saved slots on every exit path. -/
def wrapF : Nat → Expr → Option ObsId → Bool → State → State × Res
  | 0, _, _, _, st => (st, .nofuel)
  | n + 1, fn, ob, tr, st =>
    let obsPrev := st.observer
    let trPrev := st.tracking
    let st1 := { st with observer := ob, tracking := tr }
    match evalE n fn st1 with
    | (st2, .ok v) => ({ st2 with observer := obsPrev, tracking := trPrev }, .ok v)
    | (st2, .nofuel) => ({ st2 with observer := obsPrev, tracking := trPrev }, .nofuel)
    | (st2, .thrown e) =>
      match ob.bind (fun o => obsGetCtx (n + 1) st2 o SYMBOL_ERRORS) with
      | some (.handlers hs) =>
        ({ st2 with handlerLog := st2.handlerLog ++ hs.map (fun h => (h, e)),
                    observer := obsPrev, tracking := trPrev }, .ok .undefined)
      | _ => ({ st2 with observer := obsPrev, tracking := trPrev }, .thrown e)

termination_by structural n => n

/-- `Signal.get()`: register the mutual dependency edge when `TRACKING` is
on and `OBSERVER` is a computation; force `this.parent.update()` when the
owning computation is waiting; return `this.value`. -/
def sigGetF : Nat → SigId → State → State × Res
  | 0, _, st => (st, .nofuel)
  | n + 1, s, st =>
    match lookupSig st s with
    | none => (st, .ok .undefined)
    | some _ =>
      let st1 := trackDep st s
      match (lookupSig st1 s).bind (·.parent) with
      | some p =>
        if compWaitingD st1 p ≠ 0 then
          match compUpdateF n p st1 with
          | (st2, .ok _) => (st2, .ok (sigValueD st2 s))
          | other => other
        else (st1, .ok (sigValueD st1 s))
      | none => (st1, .ok (sigValueD st1 s))

termination_by structural n => n

/-- `Signal.set(value)`: resolve an update function against the current
value; when the result is not `equals`-equal, either stage it into the
active batch or assign it and run the `stale(+1, true)` / `stale(-1, true)`
propagation pair; return `this.value`. -/
def sigSetF : Nat → SigId → SetArg → State → State × Res
  | 0, _, _, st => (st, .nofuel)
  | n + 1, s, arg, st =>
    match lookupSig st s with
    | none => (st, .ok .undefined)
    | some sg =>
      let valueNext := resolveSet arg sg.value
      if sg.equals.test sg.value valueNext then (st, .ok (sigValueD st s))
      else
        match st.batch with
        | some b =>
          let b1 :=
            if b.any (fun p => decide (p.1 = s)) then
              b.map (fun p => if p.1 = s then (p.1, valueNext) else p)
            else b ++ [(s, valueNext)]
          ({ st with batch := some b1 }, .ok (sigValueD st s))
        | none =>
          let st1 := updSig st s (fun g => { g with value := valueNext })
          match sigStaleF n s 1 true st1 with
          | (st2, .ok _) =>
            match sigStaleF n s (-1) true st2 with
            | (st3, .ok _) => (st3, .ok (sigValueD st3 s))
            | other => other
          | other => other

termination_by structural n => n

/-- `Signal.stale(change, fresh)`: forward to every (live) observer of this
signal, in set order, against the live heap. -/
def sigStaleF : Nat → SigId → Int → Bool → State → State × Res
  | 0, _, _, _, st => (st, .nofuel)
  | n + 1, s, change, fresh, st => sigStaleLoop n s 0 change fresh st

termination_by structural n => n

/-- The `this.observers.forEach(observer => observer.stale(change, fresh))`
loop, walking the entry list by index against the live heap (the set is
mutated mid-loop when a visited computation re-runs). -/
def sigStaleLoop : Nat → SigId → Nat → Int → Bool → State → State × Res
  | 0, _, _, _, _, st => (st, .nofuel)
  | n + 1, s, i, change, fresh, st =>
    match lookupSig st s with
    | none => (st, .ok .undefined)
    | some sg =>
      match listNth sg.observers.entries i with
      | some e =>
        if e.2 then
          match compStaleF n e.1 change fresh st with
          | (st1, .ok _) => sigStaleLoop n s (i + 1) change fresh st1
          | other => other
        else sigStaleLoop n s (i + 1) change fresh st
      | none => (st, .ok .undefined)

termination_by structural n => n

/-- `Computation.stale(change, fresh)`: the wait/release counter algorithm.
A late decrement on a settled computation is ignored; the first increment of
a wave propagates `stale(+1, false)` downstream once; the counter is then
updated and `fresh` made sticky; on the transition back to zero the
computation updates itself (only when `fresh`) and releases its dependents
with `stale(-1, false)`. -/
def compStaleF : Nat → ObsId → Int → Bool → State → State × Res
  | 0, _, _, _, st => (st, .nofuel)
  | n + 1, o, change, fresh, st =>
    match lookupObs st o with
    | none => (st, .ok .undefined)
    | some ob =>
      if ob.waiting = 0 ∧ change < 0 then (st, .ok .undefined)
      else
        let step1 : State × Res :=
          if ob.waiting = 0 ∧ 0 < change then
            match ob.sig with
            | some s => sigStaleF n s 1 false st
            | none => (st, .ok .undefined)
          else (st, .ok .undefined)
        match step1 with
        | (st1, .ok _) =>
          let st2 := updObs st1 o (fun ob1 =>
            { ob1 with waiting := ob1.waiting + change,
                       fresh := ob1.fresh || fresh })
          if compWaitingD st2 o = 0 then
            let st3 := updObs st2 o (fun ob1 => { ob1 with waiting := 0 })
            let step2 : State × Res :=
              if compFreshD st3 o then compUpdateF n o st3 else (st3, .ok .undefined)
            match step2 with
            | (st4, .ok _) =>
              match compSigD st4 o with
              | some s => sigStaleF n s (-1) false st4
              | none => (st4, .ok .undefined)
            | other => other
          else (st2, .ok .undefined)
        | other => other

termination_by structural n => n

/-- `Computation.update()`: reset `waiting`, re-run, and write the produced
value into the internal signal through the ordinary `Signal.set` path. -/
def compUpdateF : Nat → ObsId → State → State × Res
  | 0, _, st => (st, .nofuel)
  | n + 1, o, st =>
    match lookupObs st o with
    | none => (st, .ok .undefined)
    | some _ =>
      let st1 := updObs st o (fun ob => { ob with waiting := 0 })
      match compRunF n o st1 with
      | (st2, .ok v) =>
        match compSigD st2 o with
        | some s =>
          match sigSetF n s (.val v) st2 with
          | (st3, .ok _) => (st3, .ok .undefined)
          | other => other
        | none => (st2, .ok .undefined)
      | other => other

termination_by structural n => n

/-- `Computation.run()`: dispose (clearing the previous dependency edges and
children), re-register with the parent, and evaluate `fn` under
`OBSERVER = this`, `TRACKING = true`. -/
def compRunF : Nat → ObsId → State → State × Res
  | 0, _, st => (st, .nofuel)
  | n + 1, o, st =>
    match lookupObs st o with
    | none => (st, .ok .undefined)
    | some ob0 =>
      match disposeObsF n o st with
      | none => (st, .nofuel)
      | some st1 =>
        let st2 :=
          match ob0.parent with
          | some p => updObs st1 p (fun pb => { pb with observers := pb.observers.add o })
          | none => st1
        wrapF n ob0.fn (some o) true st2

termination_by structural n => n

/-- The `Computation` constructor: `super()` records `OBSERVER` as the
parent; `this.run()` performs the first evaluation; its result seeds the
internal signal (created directly, without a `set`), whose `parent` is then
linked back to the computation. -/
def newComputation : Nat → Expr → EqKind → State → State × Res
  | 0, _, _, st => (st, .nofuel)
  | n + 1, fnE, eqk, st =>
    let oid := st.nextObs
    let st1 : State :=
      { st with
          obs := st.obs ++ [(oid, { parent := st.observer, cleanups := [],
                                    contexts := [], observers := .empty,
                                    signals := .empty, isComp := true,
                                    fn := fnE, sig := none, waiting := 0,
                                    fresh := false })],
          nextObs := oid + 1 }
    match compRunF n oid st1 with
    | (st2, .ok v) =>
      let sid := st2.nextSig
      let st3 : State :=
        { st2 with
            sigs := st2.sigs ++ [(sid, { parent := some oid, value := v,
                                         equals := eqk, observers := .empty })],
            nextSig := sid + 1 }
      (updObs st3 oid (fun ob => { ob with sig := some sid }), .ok (.int sid))
    | other => other

termination_by structural n => n

/-- `batch(fn)`: when a batch is already active just run `fn`; otherwise
install a fresh staging map, run `fn`, and in the `finally` block clear the
active-batch slot and run the three commit passes over the staged pairs
(`stale(+1, false)`, `set(() => value)`, `stale(-1, false)`), each pass over
the full staged set. -/
def batchF : Nat → Expr → State → State × Res
  | 0, _, st => (st, .nofuel)
  | n + 1, body, st =>
    match st.batch with
    | some _ => evalE n body st
    | none =>
      let st1 := { st with batch := some [] }
      match evalE n body st1 with
      | (st2, .nofuel) => ({ st2 with batch := none }, .nofuel)
      | (st2, r) =>
        let staged := st2.batch.getD []
        let st3 := { st2 with batch := none }
        match batchPass n .up staged st3 with
        | (st4, .ok _) =>
          match batchPass n .write staged st4 with
          | (st5, .ok _) =>
            match batchPass n .down staged st5 with
            | (st6, .ok _) => (st6, r)
            | other => other
          | other => other
        | other => other

termination_by structural n => n

/-- One commit pass of `batch` over the staged `(signal, value)` pairs; a
thrown error aborts the pass (and the remaining passes), as an exception
thrown inside `forEach` does. -/
def batchPass : Nat → BPass → List (SigId × Val) → State → State × Res
  | 0, _, _, st => (st, .nofuel)
  | n + 1, pass, pairs, st =>
    match pairs with
    | [] => (st, .ok .undefined)
    | (s, v) :: rest =>
      let step : State × Res :=
        match pass with
        | .up => sigStaleF n s 1 false st
        | .write => sigSetF n s (.updF (fun _ => v)) st
        | .down => sigStaleF n s (-1) false st
      match step with
      | (st1, .ok _) => batchPass n pass rest st1
      | other => other

termination_by structural n => n
end

set_option maxHeartbeats 800000

/-! ### Derived observations used by the theorems -/

/-- The pair of process-wide slots `(OBSERVER, TRACKING)`. -/
def slotsOf (st : State) : Option ObsId × Bool := (st.observer, st.tracking)

/-- A one-signal heap (signal `0` holds `5` under `Object.is`), used as a
concrete witness state. -/
def oneSigState : State :=
  { initState with
      sigs := [(0, { parent := none, value := Val.int 5,
                     equals := EqKind.byIs, observers := JsSet.empty })],
      nextSig := 1 }

/-- Run a top-level program (module-scope user code: no observer, tracking
off, no batch) with ample fuel, returning the final state. -/
def runScn (e : Expr) : State := (evalE 100 e initState).1

/-- Run a top-level program, returning its result. -/
def resScn (e : Expr) : Res := (evalE 100 e initState).2

/-- Doubling on values (`v => v * 2`). -/
def dblV : Val → Val
  | .int n => .int (2 * n)
  | .undefined => .undefined

/-- Tripling on values (`v => v * 3`). -/
def tplV : Val → Val
  | .int n => .int (3 * n)
  | .undefined => .undefined

/-! #### The diamond scenario (claim C1)

`S = createSignal(v0)` (signal 0), `A = createMemo(() => f(S()))`
(computation 0, signal 1), `B = createMemo(() => g(S()))` (computation 1,
signal 2), `E = createEffect(() => { tick(99); A(); B(); })` (computation 2,
signal 3), then one unbatched `S.set(v1)`. -/

/-- The diamond program, parametric in the memo functions and the written
values. -/
def diamondScn (f g : Val → Val) (v0 v1 : Val) : Expr :=
  .seq (.mkSignal .byIs (.const v0))
 (.seq (.mkMemo .byIs (.app f (.readSig 0)))
 (.seq (.mkMemo .byIs (.app g (.readSig 0)))
 (.seq (.mkEffect (.seq (.tick 99)
          (.seq (.readSig 1) (.seq (.readSig 2) (.const (.int 0))))))
 (.writeSig 0 (.const v1)))))

/-- Final state of the diamond program. -/
def diamondRun (f g : Val → Val) (v0 v1 : Val) : State :=
  runScn (diamondScn f g v0 v1)

/-! #### The read-time glitch-guard scenario (claim C2)

`S = createSignal(1)` (signal 0), `A = createMemo(() => S() * 2)`
(computation 0, signal 1), `B = createMemo(() => S() * 3)` (computation 1,
signal 2), and an effect `E` (computation 2) that reads `A` and, only when
`A() !== 2`, logs `B()`.  On its first run `E` therefore does not depend on
`B`'s signal.  After `S.set(2)`, `E` settles (and re-runs) before `B` has
settled, so its read of `B`'s signal finds `B`'s owner with `waiting > 0`
and must force-refresh it: every logged value is the fresh `6 = 2 * 3`,
never the stale `3`. -/
def guardScn : Expr :=
  .seq (.mkSignal .byIs (.const (.int 1)))
 (.seq (.mkMemo .byIs (.app dblV (.readSig 0)))
 (.seq (.mkMemo .byIs (.app tplV (.readSig 0)))
 (.seq (.mkEffect (.seq (.tick 99)
          (.iteE (.app (fun v => if v = .int 2 then .int 0 else .int 1) (.readSig 1))
                 (.logV (.readSig 2))
                 (.const (.int 0)))))
 (.writeSig 0 (.const (.int 2))))))

/-- A tiny literal heap for the C2 witness: signal 0 is owned by
computation 0 (a memo with constant body `3`) which is mid-wave
(`waiting = 1`). -/
def c2WitState : State :=
  { initState with
      sigs := [(0, { parent := some 0, value := Val.int 3,
                     equals := EqKind.byIs, observers := JsSet.empty })],
      nextSig := 1,
      obs := [(0, { parent := none, cleanups := [], contexts := [],
                    observers := JsSet.empty, signals := JsSet.empty,
                    isComp := true, fn := .const (Val.int 3), sig := some 0,
                    waiting := 1, fresh := false })],
      nextObs := 1 }

/-! #### Error-routing scenarios (claims C4 and C10) -/

/-- A root that registers two error handlers (`1` and `2`) and then creates
an effect whose body throws `7`: the walk from the effect up the parent
chain finds the root's handler list. -/
def errAbsorbScn : Expr :=
  .mkRoot (.seq (.onErrorE 1) (.seq (.onErrorE 2)
    (.mkEffect (.throwE (.const (.int 7))))))

/-- A root with no handlers anywhere: the effect's thrown `7` reaches the
original caller. -/
def errNoneScn : Expr := .mkRoot (.mkEffect (.throwE (.const (.int 7))))

/-- An outer handler `1` on the root and an inner handler `3` on the effect
itself: the effect's own (nearest) list wins and handler `1` never runs. -/
def errNearScn : Expr :=
  .mkRoot (.seq (.onErrorE 1)
    (.mkEffect (.seq (.onErrorE 3) (.throwE (.const (.int 9))))))

/-- C10 scenario: under a root with handler `1`, a memo whose body throws
`7` (absorbed by the root's handlers) publishes `undefined`, read back via
its signal (signal 0); then `untrack` of a throwing body returns
`undefined`. -/
def c10Scn : Expr :=
  .mkRoot (.seq (.onErrorE 1)
   (.seq (.mkMemo .byIs (.throwE (.const (.int 7))))
   (.seq (.logV (.readSig 0))
   (.logV (.untrackE (.throwE (.const (.int 8))))))))

/-- A tiny literal heap for the C10 witness: a single plain observer with
error-handler list `[4]`. -/
def c10WitState : State :=
  { initState with
      obs := [(0, { parent := none, cleanups := [],
                    contexts := [(SYMBOL_ERRORS, .handlers [4])],
                    observers := JsSet.empty, signals := JsSet.empty,
                    isComp := false, fn := .const .undefined, sig := none,
                    waiting := 0, fresh := false })],
      nextObs := 1 }

/-! #### The batch scenario (claim C3)

`S1 = createSignal(a)` (signal 0), `S2 = createSignal(b)` (signal 1), an
effect `E` (computation 0, signal 2) reading both, then
`batch(() => { S1.set(x); log(S1()); S1.set(x2); S2.set(y); log(S2()); })`. -/
def batchScn (a b x x2 y : Val) : Expr :=
  .seq (.mkSignal .byIs (.const a))
 (.seq (.mkSignal .byIs (.const b))
 (.seq (.mkEffect (.seq (.tick 5)
          (.seq (.readSig 0) (.seq (.readSig 1) (.const (.int 0))))))
 (.batchE (.seq (.writeSig 0 (.const x))
          (.seq (.logV (.readSig 0))
          (.seq (.writeSig 0 (.const x2))
          (.seq (.writeSig 1 (.const y))
          (.logV (.readSig 1)))))))))

/-- Final state of the batch program. -/
def batchRun (a b x x2 y : Val) : State := runScn (batchScn a b x x2 y)

/-! #### Context-lookup scenarios (claim C9)

A root sets context key `1` to `a`; a child effect sets the same key to `b`
and then reads it (the effect itself is the nearest setter), and also reads
the never-set key `2` (whose declared default is `d2`). -/
def ctxScn (a b d d2 : Val) : Expr :=
  .mkRoot (.seq (.ctxSet 1 (.const a))
    (.mkEffect (.seq (.ctxSet 1 (.const b))
      (.seq (.logV (.ctxGet 1 d))
      (.logV (.ctxGet 2 d2))))))

/-- Final state of the context program. -/
def ctxRun (a b d d2 : Val) : State := runScn (ctxScn a b d d2)

/-- C9 counterexample scenario: the nearest (and only) setter sets the key
to `undefined`; the getter returns the declared default `99` instead of the
set value. -/
def ctxUndefScn : Expr :=
  .mkRoot (.seq (.ctxSet 1 (.const .undefined)) (.logV (.ctxGet 1 (.int 99))))

/-! #### The disposal scenario (claim C7)

Signal 0, then a root (observer 0) creating an effect `P` (observer 1)
which registers cleanups `21`, `22`, creates a child effect `Q` (observer 2,
internal signal 1) with cleanup `23` and a read of signal 0, and itself
reads signal 0 (`P`'s internal signal is signal 2).  Then `P.dispose()` is
called twice, and finally signal 0 is written. -/
def dispScn : Expr :=
  .seq (.mkSignal .byIs (.const (.int 1)))
 (.mkRoot (.seq
    (.mkEffect (.seq (.onCleanupE 21) (.seq (.onCleanupE 22)
       (.seq (.mkEffect (.seq (.onCleanupE 23) (.seq (.tick 7)
                (.seq (.readSig 0) (.const (.int 0))))))
       (.seq (.tick 6) (.seq (.readSig 0) (.const (.int 0))))))))
    (.seq (.disposeE 1)
    (.seq (.disposeE 1)
    (.writeSig 0 (.const (.int 50)))))))

/-- The same program with a single `P.dispose()` (everything else, the
trailing write included, identical): comparing its final state with
`dispScn`'s shows the second dispose performs no observable work at all. -/
def dispOnceScn : Expr :=
  .seq (.mkSignal .byIs (.const (.int 1)))
 (.mkRoot (.seq
    (.mkEffect (.seq (.onCleanupE 21) (.seq (.onCleanupE 22)
       (.seq (.mkEffect (.seq (.onCleanupE 23) (.seq (.tick 7)
                (.seq (.readSig 0) (.const (.int 0))))))
       (.seq (.tick 6) (.seq (.readSig 0) (.const (.int 0))))))))
    (.seq (.disposeE 1)
    (.writeSig 0 (.const (.int 50))))))

/-! ### Basic lemmas about the heap and the execution-context slots -/

/-- Updating one key of a `Nat`-keyed association list commutes with
lookup: looking up the updated key sees the update, any other key is
untouched. -/
theorem assocFind_map_upd {β : Type} (l : List (Nat × β)) (k t : Nat) (f : β → β) :
    ((l.map (fun p => if p.1 = k then (p.1, f p.2) else p)).find?
        (fun p => decide (p.1 = t))).map (fun p => p.2) =
    if t = k then
      (((l.find? (fun p => decide (p.1 = t))).map (fun p => p.2)).map f)
    else (l.find? (fun p => decide (p.1 = t))).map (fun p => p.2) := by
  induction l with
  | nil => simp only [List.map_nil, List.find?_nil, Option.map_none']; split <;> rfl
  | cons hd tl ih =>
    obtain ⟨a, b⟩ := hd
    simp only [List.map_cons]
    by_cases hak : a = k
    · by_cases hat : a = t
      · have htk : t = k := by rw [← hat, hak]
        rw [if_pos hak, List.find?_cons_of_pos _ (by simpa using hat),
            List.find?_cons_of_pos _ (by simpa using hat), if_pos htk]
        rfl
      · rw [if_pos hak, List.find?_cons_of_neg _ (by simpa using hat),
            List.find?_cons_of_neg _ (by simpa using hat)]
        exact ih
    · by_cases hat : a = t
      · have hnt : ¬ t = k := fun h => hak (hat.trans h)
        rw [if_neg hak, List.find?_cons_of_pos _ (by simpa using hat),
            List.find?_cons_of_pos _ (by simpa using hat), if_neg hnt]
      · rw [if_neg hak, List.find?_cons_of_neg _ (by simpa using hat),
            List.find?_cons_of_neg _ (by simpa using hat)]
        exact ih

theorem lookupSig_updSig (st : State) (s : SigId) (f : SignalObj → SignalObj)
    (t : SigId) :
    lookupSig (updSig st s f) t =
      if t = s then (lookupSig st t).map f else lookupSig st t := by
  unfold lookupSig updSig
  exact assocFind_map_upd st.sigs s t f

theorem lookupObs_updObs (st : State) (o : ObsId) (f : ObsObj → ObsObj)
    (t : ObsId) :
    lookupObs (updObs st o f) t =
      if t = o then (lookupObs st t).map f else lookupObs st t := by
  unfold lookupObs updObs
  exact assocFind_map_upd st.obs o t f

theorem lookupSig_updObs (st : State) (o : ObsId) (f : ObsObj → ObsObj)
    (t : SigId) : lookupSig (updObs st o f) t = lookupSig st t := rfl

theorem lookupObs_updSig (st : State) (s : SigId) (f : SignalObj → SignalObj)
    (t : ObsId) : lookupObs (updSig st s f) t = lookupObs st t := rfl

/-- The dependency-registration step of `Signal.get` does not change any
signal's `parent` link. -/
theorem trackDep_sigParent (st : State) (s t : SigId) :
    (lookupSig (trackDep st s) t).map SignalObj.parent =
      (lookupSig st t).map SignalObj.parent := by
  unfold trackDep
  cases htr : st.tracking with
  | false => rfl
  | true =>
    cases hobs : st.observer with
    | none => rfl
    | some o2 =>
      cases hcomp : isCompB st o2 with
      | false => simp [hcomp]
      | true =>
        simp only [hcomp, eq_self_iff_true, if_true]
        rw [lookupSig_updObs, lookupSig_updSig]
        by_cases ho : t = s
        · rw [if_pos ho]
          cases h2 : lookupSig st t <;> rfl
        · rw [if_neg ho]

/-- The dependency-registration step of `Signal.get` does not change any
computation's `waiting` counter. -/
theorem trackDep_waiting (st : State) (s : SigId) (o : ObsId) :
    compWaitingD (trackDep st s) o = compWaitingD st o := by
  unfold trackDep
  cases htr : st.tracking with
  | false => rfl
  | true =>
    cases hobs : st.observer with
    | none => rfl
    | some o2 =>
      cases hcomp : isCompB st o2 with
      | false => simp [hcomp]
      | true =>
        simp only [hcomp, eq_self_iff_true, if_true]
        unfold compWaitingD
        rw [lookupObs_updObs, lookupObs_updSig]
        by_cases ho : o = o2
        · rw [if_pos ho]
          cases h2 : lookupObs st o <;> rfl
        · rw [if_neg ho]

theorem slotsOf_updSig (st : State) (s : SigId) (f : SignalObj → SignalObj) :
    slotsOf (updSig st s f) = slotsOf st := rfl

theorem slotsOf_updObs (st : State) (o : ObsId) (f : ObsObj → ObsObj) :
    slotsOf (updObs st o f) = slotsOf st := rfl

theorem disposeSignals_slots : ∀ (n : Nat) (o : ObsId) (i : Nat) (st st' : State),
    disposeSignals n o i st = some st' → slotsOf st' = slotsOf st := by
  intro n
  induction n with
  | zero => intro o i st st' h; exact absurd h (by rw [disposeSignals]; simp)
  | succ n ih =>
    intro o i st st' h
    rw [disposeSignals] at h
    cases h0 : lookupObs st o with
    | none =>
      simp only [h0] at h
      cases Option.some.inj h
      rfl
    | some ob =>
      simp only [h0] at h
      cases hn : listNth ob.signals.entries i with
      | none =>
        simp only [hn] at h
        cases Option.some.inj h
        rfl
      | some e =>
        simp only [hn] at h
        have h2 := ih o (i + 1) _ st' h
        rw [h2]
        split <;> rfl

theorem dispose_slots : ∀ (n : Nat),
    (∀ (o : ObsId) (st st' : State), disposeObsF n o st = some st' →
      slotsOf st' = slotsOf st) ∧
    (∀ (o : ObsId) (i : Nat) (st st' : State), disposeChildren n o i st = some st' →
      slotsOf st' = slotsOf st) := by
  intro n
  induction n with
  | zero =>
    constructor
    · intro o st st' h; exact absurd h (by rw [disposeObsF]; simp)
    · intro o i st st' h; exact absurd h (by rw [disposeChildren]; simp)
  | succ n ih =>
    constructor
    · intro o st st' h
      rw [disposeObsF] at h
      cases h0 : lookupObs st o with
      | none =>
        simp only [h0] at h
        cases Option.some.inj h
        rfl
      | some ob =>
        simp only [h0] at h
        cases h1 : disposeChildren n o 0 st with
        | none => simp only [h1] at h; exact Option.noConfusion h
        | some st1 =>
          simp only [h1] at h
          cases h2 : disposeSignals n o 0 st1 with
          | none => simp only [h2] at h; exact Option.noConfusion h
          | some st2 =>
            simp only [h2] at h
            have e1 := ih.2 o 0 st st1 h1
            have e2 := disposeSignals_slots n o 0 st1 st2 h2
            split at h <;> split at h <;>
              (cases Option.some.inj h; exact e2.trans e1)
    · intro o i st st' h
      rw [disposeChildren] at h
      cases h0 : lookupObs st o with
      | none =>
        simp only [h0] at h
        cases Option.some.inj h
        rfl
      | some ob =>
        simp only [h0] at h
        cases hn : listNth ob.observers.entries i with
        | none =>
          simp only [hn] at h
          cases Option.some.inj h
          rfl
        | some e =>
          simp only [hn] at h
          cases he : e.2 with
          | false =>
            simp only [he, Bool.false_eq_true, if_false] at h
            exact ih.2 o (i + 1) st st' h
          | true =>
            simp only [he, eq_self_iff_true, if_true] at h
            cases h1 : disposeObsF n e.1 st with
            | none => simp only [h1] at h; exact Option.noConfusion h
            | some st1 =>
              simp only [h1] at h
              exact (ih.2 o (i + 1) st1 st' h).trans (ih.1 e.1 st st1 h1)

theorem disposeObsF_slots (n : Nat) (o : ObsId) (st st' : State)
    (h : disposeObsF n o st = some st') : slotsOf st' = slotsOf st :=
  (dispose_slots n).1 o st st' h

theorem wrapF_slots (n : Nat) (fn : Expr) (ob : Option ObsId) (tr : Bool)
    (st : State) : slotsOf (wrapF n fn ob tr st).1 = slotsOf st := by
  cases n with
  | zero => rfl
  | succ n =>
    rw [wrapF]
    rcases h : evalE n fn { st with observer := ob, tracking := tr } with ⟨st2, r⟩
    cases r with
    | ok v => simp only [h]; rfl
    | nofuel => simp only [h]; rfl
    | thrown e =>
      simp only [h]
      cases hh : ob.bind (fun o => obsGetCtx (n + 1) st2 o SYMBOL_ERRORS) with
      | none => rfl
      | some cv => cases cv <;> rfl

theorem compRunF_slots (n : Nat) (o : ObsId) (st : State) :
    slotsOf (compRunF n o st).1 = slotsOf st := by
  cases n with
  | zero => rfl
  | succ n =>
    rw [compRunF]
    cases h : lookupObs st o with
    | none => rfl
    | some ob0 =>
      simp only [h]
      cases hd : disposeObsF n o st with
      | none => rfl
      | some st1 =>
        have h1 := disposeObsF_slots n o st st1 hd
        cases hp : ob0.parent with
        | none => exact (wrapF_slots n ob0.fn (some o) true _).trans h1
        | some p => exact (wrapF_slots n ob0.fn (some o) true _).trans h1

/-- When the body wrapped by `Wrapper.wrap` throws and the walk up the
observer's context chain finds a handler list, every handler is invoked
with the error, the error is swallowed, and the wrap returns `undefined`
(with the slots restored). -/
theorem wrapF_absorb (n : Nat) (fn : Expr) (ob : Option ObsId) (tr : Bool)
    (st st2 : State) (e : Val) (hl : List Nat)
    (h1 : evalE n fn { st with observer := ob, tracking := tr } = (st2, .thrown e))
    (h2 : ob.bind (fun o => obsGetCtx (n + 1) st2 o SYMBOL_ERRORS) =
      some (.handlers hl)) :
    wrapF (n + 1) fn ob tr st =
      ({ st2 with handlerLog := st2.handlerLog ++ hl.map (fun h => (h, e)),
                  observer := st.observer, tracking := st.tracking },
        .ok .undefined) := by
  rw [wrapF]
  simp only [h1, h2]

/-- When the body wrapped by `Wrapper.wrap` throws and the walk up the
observer's context chain finds no handler list, the error is rethrown to
the caller (with the slots restored). -/
theorem wrapF_rethrow (n : Nat) (fn : Expr) (ob : Option ObsId) (tr : Bool)
    (st st2 : State) (e : Val)
    (h1 : evalE n fn { st with observer := ob, tracking := tr } = (st2, .thrown e))
    (h2 : ob.bind (fun o => obsGetCtx (n + 1) st2 o SYMBOL_ERRORS) = none) :
    wrapF (n + 1) fn ob tr st =
      ({ st2 with observer := st.observer, tracking := st.tracking },
        .thrown e) := by
  rw [wrapF]
  simp only [h1, h2]

/-! ### Claim theorems -/

/-- **C5** (context restoration on all exit paths).  For every call to the
scoped-execution primitive `Wrapper.wrap` — and hence for every `untrack`
call, every `createRoot` call, and every `Computation.run` — the
process-wide `OBSERVER` and `TRACKING` slots equal their pre-call values
after the call returns, whether the wrapped body returned normally, threw a
handled or unhandled error, or ran out of fuel, under arbitrary nesting
(the inner body `fn`/`body` is universally quantified, so it may itself
contain arbitrarily nested wrapped calls). -/
theorem c5_context_restoration :
    (∀ (n : Nat) (fn : Expr) (ob : Option ObsId) (tr : Bool) (st : State),
      slotsOf (wrapF n fn ob tr st).1 = slotsOf st) ∧
    (∀ (n : Nat) (body : Expr) (st : State),
      slotsOf (evalE (n + 1) (.untrackE body) st).1 = slotsOf st) ∧
    (∀ (n : Nat) (body : Expr) (st : State),
      slotsOf (evalE (n + 1) (.mkRoot body) st).1 = slotsOf st) ∧
    (∀ (n : Nat) (o : ObsId) (st : State),
      slotsOf (compRunF n o st).1 = slotsOf st) := by
  refine ⟨wrapF_slots, fun n body st => ?_, fun n body st => ?_, compRunF_slots⟩
  · rw [evalE]
    exact wrapF_slots n body st.observer false st
  · rw [evalE]
    exact wrapF_slots n body (some st.nextObs) false _

/-- **C6** (equal-value write is a no-op).  For every signal `s` and every
write whose resolved next value is `equals`-equal to the current value, the
write returns the current value and leaves the state exactly as it was: the
stored value is unchanged, nothing is staged into an active batch, no stale
propagation is emitted, and (since the state is unchanged) no dependent
computation re-executes. -/
theorem c6_equal_write_noop (n : Nat) (s : SigId) (arg : SetArg) (st : State)
    (sg : SignalObj) (hs : lookupSig st s = some sg)
    (heq : sg.equals.test sg.value (resolveSet arg sg.value) = true) :
    sigSetF (n + 1) s arg st = (st, .ok sg.value) := by
  rw [sigSetF, hs]
  simp only [heq, if_true, sigValueD, hs]

/-- Witness for C6: a heap with one signal holding `5` under the default
(`Object.is`) equality; writing `5` again returns `5` and leaves the state
untouched. -/
theorem c6_equal_write_noop_witness :
    sigSetF 10 0 (SetArg.val (Val.int 5)) oneSigState =
      (oneSigState, Res.ok (Val.int 5)) :=
  c6_equal_write_noop 9 0 (SetArg.val (Val.int 5)) oneSigState
    { parent := none, value := Val.int 5, equals := EqKind.byIs,
      observers := JsSet.empty } rfl rfl

/-- **C4** (error routing).  Three closed scenarios:
(a) `errAbsorbScn` — a body throwing `7` under an effect whose nearest
ancestor with handlers is the root with list `[1, 2]`: both handlers run
with the error, in order, and the program completes normally (the error is
not rethrown);
(b) `errNoneScn` — no handlers anywhere in the chain: the thrown `7`
reaches the original caller and no handler runs;
(c) `errNearScn` — a handler `3` on the throwing effect itself and a
handler `1` on the root: the nearest list wins, handler `3` alone runs, and
the error does not also propagate to handler `1`. -/
theorem c4_error_routing :
    (resScn errAbsorbScn = Res.ok Val.undefined ∧
      (runScn errAbsorbScn).handlerLog = [(1, Val.int 7), (2, Val.int 7)]) ∧
    (resScn errNoneScn = Res.thrown (Val.int 7) ∧
      (runScn errNoneScn).handlerLog = []) ∧
    (resScn errNearScn = Res.ok Val.undefined ∧
      (runScn errNearScn).handlerLog = [(3, Val.int 9)]) := by
  refine ⟨⟨?_, ?_⟩, ⟨?_, ?_⟩, ⟨?_, ?_⟩⟩ <;>
    simp [resScn, runScn, errAbsorbScn, errNoneScn, errNearScn, evalE, wrapF,
      sigGetF, sigSetF, sigStaleF, sigStaleLoop, compStaleF, compUpdateF,
      compRunF, newComputation, batchF, batchPass, disposeObsF,
      disposeChildren, disposeSignals, obsGetCtx, trackDep, resolveSet,
      updSig, updObs, lookupSig, lookupObs, sigValueD, compWaitingD,
      compFreshD, compSigD, isCompB, ctxAssign, listNth, JsSet.add, JsSet.delete,
      JsSet.has, JsSet.empty, EqKind.test, Val.truthy, initState,
      SYMBOL_ERRORS]

/-- **C10** (handled errors surface as `undefined`).  First conjunct: in
general, whenever a wrapped body throws and a handler list on the observer
or an ancestor absorbs the error, `Wrapper.wrap` returns `undefined`.
Remaining conjuncts, on the closed scenario `c10Scn`: a memo whose body
throws into the root's handler publishes `undefined` as its value (its
signal reads back `undefined`), `untrack` of a throwing body returns
`undefined` (both logged values are `undefined`), the handlers saw both
errors, and the whole `createRoot` call completes normally. -/
theorem c10_handled_error_is_undefined :
    (∀ (n : Nat) (fn : Expr) (ob : Option ObsId) (tr : Bool) (st st2 : State)
      (e : Val) (hl : List Nat),
      evalE n fn { st with observer := ob, tracking := tr } = (st2, .thrown e) →
      ob.bind (fun o => obsGetCtx (n + 1) st2 o SYMBOL_ERRORS) =
        some (.handlers hl) →
      (wrapF (n + 1) fn ob tr st).2 = Res.ok Val.undefined) ∧
    (runScn c10Scn).vlog = [Val.undefined, Val.undefined] ∧
    (runScn c10Scn).handlerLog = [(1, Val.int 7), (1, Val.int 8)] ∧
    resScn c10Scn = Res.ok Val.undefined := by
  refine ⟨fun n fn ob tr st st2 e hl h1 h2 => ?_, ?_, ?_, ?_⟩
  · rw [wrapF_absorb n fn ob tr st st2 e hl h1 h2]
  all_goals
    simp [resScn, runScn, c10Scn, evalE, wrapF, sigGetF, sigSetF, sigStaleF,
      sigStaleLoop, compStaleF, compUpdateF, compRunF, newComputation, batchF,
      batchPass, disposeObsF, disposeChildren, disposeSignals, obsGetCtx,
      trackDep, resolveSet, updSig, updObs, lookupSig, lookupObs, sigValueD,
      compWaitingD, compFreshD, compSigD, isCompB, ctxAssign, listNth, JsSet.add,
      JsSet.delete, JsSet.has, JsSet.empty, EqKind.test, Val.truthy,
      initState, SYMBOL_ERRORS]

/-- Witness for C10's universally quantified conjunct: a throwing body
wrapped under a plain observer whose handler list is `[4]` makes the wrap
return `undefined`. -/
theorem c10_handled_error_is_undefined_witness :
    (wrapF 3 (.throwE (.const (Val.int 5))) (some 0) false c10WitState).2 =
      Res.ok Val.undefined :=
  c10_handled_error_is_undefined.1 2 (.throwE (.const (Val.int 5))) (some 0)
    false c10WitState
    { c10WitState with observer := some 0, tracking := false }
    (Val.int 5) [4] rfl rfl

/-- **C1, counterexample to the claim as stated.**  In the diamond with
*constant* memos (`A = () => (S(), 7)`, `B = () => (S(), 8)` — both still
read `S`, so the graph shape is exactly the one described) a write changing
`S` from `1` to `2` re-executes the effect **zero** times, not exactly
once: its tick `99` is logged only by the construction run (`[99]`), where
the claim demands one more execution (`[99, 99]`).  The wave reaches the
effect with `fresh = false` on every converging path, so the zero-crossing
of its `waiting` counter does not call `update()`. -/
theorem c1_diamond_counterexample :
    (diamondRun (fun _ => Val.int 7) (fun _ => Val.int 8)
        (Val.int 1) (Val.int 2)).ticks = [99] ∧
    ¬ (diamondRun (fun _ => Val.int 7) (fun _ => Val.int 8)
        (Val.int 1) (Val.int 2)).ticks = [99, 99] := by
  constructor <;>
    simp [diamondRun, diamondScn, runScn, evalE, wrapF, sigGetF, sigSetF,
      sigStaleF, sigStaleLoop, compStaleF, compUpdateF, compRunF,
      newComputation, batchF, batchPass, disposeObsF, disposeChildren,
      disposeSignals, obsGetCtx, trackDep, resolveSet, updSig, updObs,
      lookupSig, lookupObs, sigValueD, compWaitingD, compFreshD, compSigD,
      isCompB, ctxAssign, listNth, JsSet.add, JsSet.delete, JsSet.has,
      JsSet.empty, EqKind.test, Val.truthy, initState, SYMBOL_ERRORS]

/-- **C1 as amended** (diamond coalescing).  For every pair of memo
functions `f`, `g` and every write that changes `S` from `v0` to `v1`
(under the default `Object.is` equality), the effect `E` reading both memos
is re-executed **at most** once during the propagation wave — exactly once
when at least one memo's recomputed value differs from its previous value
under its `equals`, and zero times when both memos recompute to
`equals`-equal values.  Including the construction run, `E`'s tick log is
`[99, 99]` in the first case and `[99]` in the second; it is never
`[99, 99, 99]`, i.e. never once per converging path. -/
theorem c1_diamond_amended (f g : Val → Val) (v0 v1 : Val) (hv : v0 ≠ v1) :
    (diamondRun f g v0 v1).ticks =
      if f v0 = f v1 ∧ g v0 = g v1 then [99] else [99, 99] := by
  by_cases hf : f v0 = f v1 <;> by_cases hg : g v0 = g v1 <;>
    simp [diamondRun, diamondScn, runScn, evalE, wrapF, sigGetF, sigSetF,
      sigStaleF, sigStaleLoop, compStaleF, compUpdateF, compRunF,
      newComputation, batchF, batchPass, disposeObsF, disposeChildren,
      disposeSignals, obsGetCtx, trackDep, resolveSet, updSig, updObs,
      lookupSig, lookupObs, sigValueD, compWaitingD, compFreshD, compSigD,
      isCompB, ctxAssign, listNth, JsSet.add, JsSet.delete, JsSet.has,
      JsSet.empty, EqKind.test, Val.truthy, initState, SYMBOL_ERRORS,
      hv, hf, hg]

/-- Witness for C1 as amended: with `f = (v => v * 2)`, `g = (v => v * 3)`
and the write `1 ↦ 2`, both memo values change and the effect's function
runs twice overall (construction plus exactly one wave re-execution). -/
theorem c1_diamond_amended_witness :
    (diamondRun dblV tplV (Val.int 1) (Val.int 2)).ticks = [99, 99] := by
  have h := c1_diamond_amended dblV tplV (Val.int 1) (Val.int 2) (by simp)
  simpa [dblV, tplV] using h

/-- **C2** (read-time glitch guard).  First conjunct, fully general: for
every signal `s` whose `parent` (owner) computation `p` has `waiting ≠ 0`
at the moment of a read, `Signal.get` synchronously calls that owner's
`update()` (after the dependency-registration step `trackDep`, which
touches neither `parent` nor `waiting`) and returns the signal's value in
the post-update state — so the value returned is the one produced after
the owner has caught up with its already-changed dependencies.  Second
conjunct, the observable consequence on the `guardScn` scenario: an effect
that starts depending on memo `B`'s signal mid-wave — before `B` has
settled — reads it through the guard and logs only the fresh value
`6 = 2 * 3`, never the stale `3`. -/
theorem c2_read_time_glitch_guard :
    (∀ (n : Nat) (s : SigId) (st : State) (sg : SignalObj) (p : ObsId),
      lookupSig st s = some sg → sg.parent = some p →
      compWaitingD st p ≠ 0 →
      sigGetF (n + 1) s st =
        (match compUpdateF n p (trackDep st s) with
          | (st2, Res.ok _) => (st2, Res.ok (sigValueD st2 s))
          | other => other)) ∧
    (runScn guardScn).vlog = [Val.int 6, Val.int 6] := by
  refine ⟨fun n s st sg p hs hp hw => ?_, ?_⟩
  · rw [sigGetF]
    simp only [hs]
    have hb : (lookupSig (trackDep st s) s).bind (fun x => x.parent) = some p := by
      have h1 := trackDep_sigParent st s s
      rw [hs] at h1
      cases h2 : lookupSig (trackDep st s) s with
      | none => rw [h2] at h1; simp at h1
      | some sg2 =>
        rw [h2] at h1
        simp only [Option.map_some'] at h1
        simp only [Option.some_bind]
        rw [Option.some.inj h1]
        exact hp
    simp only [hb]
    rw [trackDep_waiting]
    rw [if_pos hw]
  · simp [runScn, guardScn, dblV, tplV, evalE, wrapF, sigGetF, sigSetF,
      sigStaleF, sigStaleLoop, compStaleF, compUpdateF, compRunF,
      newComputation, batchF, batchPass, disposeObsF, disposeChildren,
      disposeSignals, obsGetCtx, trackDep, resolveSet, updSig, updObs,
      lookupSig, lookupObs, sigValueD, compWaitingD, compFreshD, compSigD,
      isCompB, ctxAssign, listNth, JsSet.add, JsSet.delete, JsSet.has,
      JsSet.empty, EqKind.test, Val.truthy, initState, SYMBOL_ERRORS]

/-- Witness for C2's universally quantified conjunct, at the literal heap
`c2WitState` whose signal 0 is owned by computation 0 with `waiting = 1`:
the read goes through the owner's forced `update()`. -/
theorem c2_read_time_glitch_guard_witness :
    sigGetF 6 0 c2WitState =
      (match compUpdateF 5 0 (trackDep c2WitState 0) with
        | (st2, Res.ok _) => (st2, Res.ok (sigValueD st2 0))
        | other => other) :=
  c2_read_time_glitch_guard.1 5 0 c2WitState
    { parent := some 0, value := Val.int 3, equals := EqKind.byIs,
      observers := JsSet.empty } 0 rfl rfl (by decide)

/-- **C3** (batch coalescing and staging visibility).  For all initial
values `a`, `b` of `S1`, `S2` and all written values `x`, `x2`, `y` that
differ from the current values, running
`batch(() => { S1.set(x); log(S1()); S1.set(x2); S2.set(y); log(S2()) })`
under an effect `E` reading both signals gives: both reads inside the body
still return the pre-batch values (`vlog = [a, b]`); the staged writes
commit with last-write-wins (`S1 = x2`, not `x`; `S2 = y`); `E`
re-executes exactly once in total for the whole batch
(`ticks = [5, 5]`: construction plus one commit run); and the
active-batch slot is clear afterwards (the commit itself did not
re-stage). -/
theorem c3_batch (a b x x2 y : Val) (hax : ¬ a = x) (hax2 : ¬ a = x2)
    (hby : ¬ b = y) :
    (batchRun a b x x2 y).vlog = [a, b] ∧
    sigValueD (batchRun a b x x2 y) 0 = x2 ∧
    sigValueD (batchRun a b x x2 y) 1 = y ∧
    (batchRun a b x x2 y).ticks = [5, 5] ∧
    (batchRun a b x x2 y).batch = none := by
  refine ⟨?_, ?_, ?_, ?_, ?_⟩ <;>
    simp [batchRun, batchScn, runScn, evalE, wrapF, sigGetF, sigSetF,
      sigStaleF, sigStaleLoop, compStaleF, compUpdateF, compRunF,
      newComputation, batchF, batchPass, disposeObsF, disposeChildren,
      disposeSignals, obsGetCtx, trackDep, resolveSet, updSig, updObs,
      lookupSig, lookupObs, sigValueD, compWaitingD, compFreshD, compSigD,
      isCompB, ctxAssign, listNth, JsSet.add, JsSet.delete, JsSet.has,
      JsSet.empty, EqKind.test, Val.truthy, initState, SYMBOL_ERRORS,
      hax, hax2, hby]

/-- Witness for C3 at the concrete instance `a=1, b=2, x=10, x2=11, y=12`:
pre-batch reads logged `[1, 2]` and the last staged write for `S1` wins. -/
theorem c3_batch_witness :
    (batchRun (Val.int 1) (Val.int 2) (Val.int 10) (Val.int 11)
        (Val.int 12)).vlog = [Val.int 1, Val.int 2] ∧
    sigValueD (batchRun (Val.int 1) (Val.int 2) (Val.int 10) (Val.int 11)
        (Val.int 12)) 0 = Val.int 11 := by
  have h := c3_batch (Val.int 1) (Val.int 2) (Val.int 10) (Val.int 11)
    (Val.int 12) (by decide) (by decide) (by decide)
  exact ⟨h.1, h.2.1⟩

/-- **C7** (disposal is idempotent and cascading), on the closed scenario
`dispScn` (root, effect `P` with cleanups `21`, `22`, child effect `Q`
with cleanup `23`, both reading signal 0; then `P.dispose()` twice, then a
write to signal 0):
(1) the run with two dispose calls ends in *exactly* the same state as the
run with one — the second dispose performs no observable work at all;
(2) the child is disposed first and cleanups run in registration order
(`[23, 21, 22]`);
(3) the subsequent write to signal 0 re-triggers nothing (`ticks = [7, 6]`,
unchanged from the construction runs);
(4) both `P` and `Q` have been removed from signal 0's observer set (their
entries are dead);
(5) `P`'s cleanups, contexts, children and dependencies are cleared;
(6) `P` has been removed from its parent root's children set. -/
theorem c7_dispose :
    runScn dispScn = runScn dispOnceScn ∧
    (runScn dispScn).cleanupLog = [23, 21, 22] ∧
    (runScn dispScn).ticks = [7, 6] ∧
    (lookupSig (runScn dispScn) 0).map (fun g => g.observers.entries) =
      some [(2, false), (1, false)] ∧
    (lookupObs (runScn dispScn) 1).map
        (fun ob => (ob.cleanups, ob.contexts, ob.observers.entries,
                    ob.signals.entries)) =
      some ([], [], [], []) ∧
    (lookupObs (runScn dispScn) 0).map (fun ob => ob.observers.entries) =
      some [(1, false)] := by
  refine ⟨?_, ?_, ?_, ?_, ?_, ?_⟩ <;>
    simp [runScn, dispScn, dispOnceScn, evalE, wrapF, sigGetF, sigSetF,
      sigStaleF, sigStaleLoop, compStaleF, compUpdateF, compRunF,
      newComputation, batchF, batchPass, disposeObsF, disposeChildren,
      disposeSignals, obsGetCtx, trackDep, resolveSet, updSig, updObs,
      lookupSig, lookupObs, sigValueD, compWaitingD, compFreshD, compSigD,
      isCompB, ctxAssign, listNth, JsSet.add, JsSet.delete, JsSet.has,
      JsSet.empty, EqKind.test, Val.truthy, initState, SYMBOL_ERRORS]

/-- **C9, counterexample to the claim as stated.**  The nearest (and only)
observer in the chain *does set* the context key — to the value
`undefined` — yet `get()` returns the declared default `99`, not the set
value: `createContext`'s getter applies `?? defaultValue` to the chain
lookup, so a stored `undefined` is replaced by the default. -/
theorem c9_context_counterexample :
    (runScn ctxUndefScn).vlog = [Val.int 99] ∧
    ¬ (runScn ctxUndefScn).vlog = [Val.undefined] := by
  constructor <;>
    simp [runScn, ctxUndefScn, evalE, wrapF, sigGetF, sigSetF,
      sigStaleF, sigStaleLoop, compStaleF, compUpdateF, compRunF,
      newComputation, batchF, batchPass, disposeObsF, disposeChildren,
      disposeSignals, obsGetCtx, trackDep, resolveSet, updSig, updObs,
      lookupSig, lookupObs, sigValueD, compWaitingD, compFreshD, compSigD,
      isCompB, ctxAssign, listNth, JsSet.add, JsSet.delete, JsSet.has,
      JsSet.empty, EqKind.test, Val.truthy, initState, SYMBOL_ERRORS]

/-- **C9 as amended** (context lookup).  For every root-set value `av`,
effect-set value `bv` and defaults `d`, `d2`: a `get()` with an active
observer returns the value set by the nearest observer in the parent chain
that set the key — unless that nearest value is `undefined`, in which case
the declared default is returned instead (ancestors are *not* consulted
further, as the chain lookup stops at the nearest setter) — and returns
the declared default when no observer in the chain set the key at all.
In the scenario the effect reads its own `bv` (shadowing the root's `av`)
for key 1, and the default `d2` for the never-set key 2. -/
theorem c9_context_amended (av bv d d2 : Val) :
    (ctxRun av bv d d2).vlog = [if bv = Val.undefined then d else bv, d2] := by
  simp [ctxRun, ctxScn, runScn, evalE, wrapF, sigGetF, sigSetF,
    sigStaleF, sigStaleLoop, compStaleF, compUpdateF, compRunF,
    newComputation, batchF, batchPass, disposeObsF, disposeChildren,
    disposeSignals, obsGetCtx, trackDep, resolveSet, updSig, updObs,
    lookupSig, lookupObs, sigValueD, compWaitingD, compFreshD, compSigD,
    isCompB, ctxAssign, listNth, JsSet.add, JsSet.delete, JsSet.has,
    JsSet.empty, EqKind.test, Val.truthy, initState, SYMBOL_ERRORS]

end Flimsy
